import Mathlib

/-!
Verification of the packaging descriptor `setup.py` of the housekeeper
repository.  The module body is embedded as a list of Python statements;
the keyword arguments of the `setup(...)` call are embedded as Python
expressions (string literals, list literals and name references), which
are evaluated against an arbitrary environment to produce the observable
effect trace of the module: the single call to the external `setup`
routine.
-/

/-- A Python value that can result from evaluating one of the literal
expressions appearing in the descriptor: a string or a list of values. -/
inductive PyVal where
  | str (s : String)
  | list (xs : List PyVal)
deriving Repr

/-- A Python expression as it appears in the module body: a string
literal, a list display, or a reference to a name in scope. -/
inductive PyExpr where
  | strLit (s : String)
  | listLit (xs : List PyExpr)
  | var (n : String)
deriving Repr

/-- An environment mapping Python names to values (used only when an
expression references a name). -/
def Env : Type := String → Option PyVal

mutual

/-- Evaluate a Python expression against an environment.  A name lookup
may fail; literals always evaluate. -/
def PyExpr.eval (env : Env) : PyExpr → Option PyVal
  | .strLit s => some (.str s)
  | .var n => env n
  | .listLit xs => (PyExpr.evalList env xs).map PyVal.list

/-- Evaluate a list of expressions left to right, failing if any fails. -/
def PyExpr.evalList (env : Env) : List PyExpr → Option (List PyVal)
  | [] => some []
  | x :: xs =>
      match PyExpr.eval env x, PyExpr.evalList env xs with
      | some v, some vs => some (v :: vs)
      | _, _ => none

end

mutual

/-- An expression is a compile-time literal: built only from string and
list literals, with no name reference. -/
def PyExpr.isLiteral : PyExpr → Bool
  | .strLit _ => true
  | .var _ => false
  | .listLit xs => PyExpr.allLiteral xs

/-- Every expression in the list is a compile-time literal. -/
def PyExpr.allLiteral : List PyExpr → Bool
  | [] => true
  | x :: xs => PyExpr.isLiteral x && PyExpr.allLiteral xs

end

mutual

/-- The names referenced (read) by an expression. -/
def PyExpr.freeVars : PyExpr → List String
  | .strLit _ => []
  | .var n => [n]
  | .listLit xs => PyExpr.freeVarsList xs

/-- The names referenced by a list of expressions. -/
def PyExpr.freeVarsList : List PyExpr → List String
  | [] => []
  | x :: xs => PyExpr.freeVars x ++ PyExpr.freeVarsList xs

end

/-- A top-level statement of the module body of `setup.py`:
a `from M import n1, ...` statement, an `import M` statement, or the
call `setup(key1 = e1, ...)` with keyword arguments. -/
inductive Stmt where
  | importFrom (module : String) (names : List String)
  | importModule (module : String)
  | callSetup (kwargs : List (String × PyExpr))

/-- Whether a statement is `import m` for the given module name. -/
def Stmt.isImportOf (m : String) : Stmt → Bool
  | .importModule n => n == m
  | _ => false

/-- Whether a statement is the `setup(...)` call. -/
def Stmt.isCallSetup : Stmt → Bool
  | .callSetup _ => true
  | _ => false

/-- The names a statement reads.  Import statements bind names but read
none; the `setup(...)` call reads the name `setup` and every name
referenced inside its keyword-argument expressions. -/
def Stmt.references (n : String) : Stmt → Bool
  | .importFrom _ _ => false
  | .importModule _ => false
  | .callSetup kwargs =>
      n == "setup" || kwargs.any (fun kv => (PyExpr.freeVars kv.2).contains n)

/-- An observable effect of executing the module body: the call made to
the external `setup` routine, with its fully evaluated keyword
arguments. -/
inductive Effect where
  | setupCall (kwargs : List (String × PyVal))

/-- Execute one statement, producing its observable effects.  Imports
bind names and produce no effect of their own; the `setup(...)` call
evaluates its keyword arguments and delegates to the external routine.
If some argument fails to evaluate no call is made. -/
def runStmt (env : Env) : Stmt → List Effect
  | .importFrom _ _ => []
  | .importModule _ => []
  | .callSetup kwargs =>
      match PyExpr.evalList env (kwargs.map Prod.snd) with
      | some vs => [Effect.setupCall ((kwargs.map Prod.fst).zip vs)]
      | none => []

/-- Execute a module body: the statements run once, in order. -/
def runModule (env : Env) (stmts : List Stmt) : List Effect :=
  (stmts.map (runStmt env)).flatten

/-- Look up a keyword argument by name in a keyword-argument list. -/
def lookupKwarg (k : String) (kwargs : List (String × PyExpr)) : Option PyExpr :=
  (kwargs.find? (fun kv => kv.1 == k)).map Prod.snd

/-- The keyword arguments of the `setup(...)` call in `setup.py`,
transcribed in source order. -/
def setupKwargs : List (String × PyExpr) :=
  [ ("name", .strLit "housekeeper"),
    ("version", .strLit "1.0"),
    ("requires", .listLit []),
    ("description", .strLit "Remove old files, links and directories"),
    ("author", .strLit "Simone Campagna"),
    ("author_email", .strLit "simone.campagna@tiscali.it"),
    ("url", .strLit "https://github.com/simone-campagna/housekeeper"),
    ("scripts", .listLit [.strLit "housekeeper"]) ]

/-- The module body of `setup.py`, transcribed in source order:
`from distutils.core import setup`, `import os`, and the single
`setup(...)` call. -/
def setupModule : List Stmt :=
  [ .importFrom "distutils.core" ["setup"],
    .importModule "os",
    .callSetup setupKwargs ]

/-- The keyword arguments of the `setup(...)` call after evaluation:
every argument is a literal, so evaluation is exact and independent of
the environment. -/
def evaluatedSetupKwargs : List (String × PyVal) :=
  [ ("name", .str "housekeeper"),
    ("version", .str "1.0"),
    ("requires", .list []),
    ("description", .str "Remove old files, links and directories"),
    ("author", .str "Simone Campagna"),
    ("author_email", .str "simone.campagna@tiscali.it"),
    ("url", .str "https://github.com/simone-campagna/housekeeper"),
    ("scripts", .list [.str "housekeeper"]) ]

/-- The module body of `setup.py` with the `import os` line removed. -/
def setupModuleNoOs : List Stmt :=
  setupModule.filter (fun s => !(Stmt.isImportOf "os" s))

/-- Claim C1: the setup invocation declares exactly one installable
script, and its name is `housekeeper`: the `scripts` keyword argument is
the one-element list `['housekeeper']`. -/
theorem scripts_is_single_housekeeper :
    lookupKwarg "scripts" setupKwargs
      = some (PyExpr.listLit [PyExpr.strLit "housekeeper"]) := rfl

/-- Claim C2: the `version` keyword argument passed to the setup
invocation equals the literal string `1.0` exactly. -/
theorem version_is_one_dot_zero :
    lookupKwarg "version" setupKwargs = some (PyExpr.strLit "1.0") := rfl

/-- Claim C3: the declared runtime dependency list is empty: the
`requires` keyword argument equals the empty list. -/
theorem requires_is_empty :
    lookupKwarg "requires" setupKwargs = some (PyExpr.listLit []) := rfl

/-- Claim C4: the `description` keyword argument equals the exact string
`Remove old files, links and directories`. -/
theorem description_is_exact :
    lookupKwarg "description" setupKwargs
      = some (PyExpr.strLit "Remove old files, links and directories") := rfl

/-- Claim C5: the `name` keyword argument equals the exact string
`housekeeper`. -/
theorem name_is_housekeeper :
    lookupKwarg "name" setupKwargs = some (PyExpr.strLit "housekeeper") := rfl

/-- Claim C6: every execution of the module body makes the identical
single call to the external `setup` routine, whatever the environment:
the body performs exactly one `setup` call, every keyword argument is a
compile-time string or list literal, and the body produces no observable
effect besides that one delegated call. -/
theorem setup_call_deterministic :
    (∀ env1 env2 : Env, runModule env1 setupModule = runModule env2 setupModule) ∧
    (∀ env : Env, runModule env setupModule = [Effect.setupCall evaluatedSetupKwargs]) ∧
    setupModule.countP Stmt.isCallSetup = 1 ∧
    setupKwargs.all (fun kv => PyExpr.isLiteral kv.2) = true :=
  ⟨fun _ _ => rfl, fun _ => rfl, rfl, rfl⟩

/-- Claim C7: the `url` keyword argument equals the exact string
`https://github.com/simone-campagna/housekeeper`. -/
theorem url_is_github_repo :
    lookupKwarg "url" setupKwargs
      = some (PyExpr.strLit "https://github.com/simone-campagna/housekeeper") := rfl

/-- Claim C8: the setup invocation passes no `packages`, `py_modules`
or `entry_points` keyword arguments; the complete keyword list is
`name`, `version`, `requires`, `description`, `author`, `author_email`,
`url` and `scripts`, so the single script is the only installable
artifact the descriptor declares. -/
theorem no_packages_modules_or_entry_points :
    lookupKwarg "packages" setupKwargs = none ∧
    lookupKwarg "py_modules" setupKwargs = none ∧
    lookupKwarg "entry_points" setupKwargs = none ∧
    setupKwargs.map Prod.fst
      = ["name", "version", "requires", "description", "author",
         "author_email", "url", "scripts"] := ⟨rfl, rfl, rfl, rfl⟩

/-- Claim C9: the author metadata is fixed: the `author` keyword
argument equals `Simone Campagna` and the `author_email` keyword
argument equals `simone.campagna@tiscali.it`. -/
theorem author_metadata_is_fixed :
    lookupKwarg "author" setupKwargs = some (PyExpr.strLit "Simone Campagna") ∧
    lookupKwarg "author_email" setupKwargs
      = some (PyExpr.strLit "simone.campagna@tiscali.it") := ⟨rfl, rfl⟩

/-- Claim C10: the `os` module is imported but never referenced in the
module body, and the module with the `import os` line removed is
observably equivalent to the original: in every environment it makes the
same single `setup` call with the same arguments. -/
theorem import_os_is_unused :
    setupModule.any (Stmt.isImportOf "os") = true ∧
    setupModule.all (fun s => !(Stmt.references "os" s)) = true ∧
    (∀ env : Env, runModule env setupModuleNoOs = runModule env setupModule) ∧
    (∀ env : Env, runModule env setupModuleNoOs
      = [Effect.setupCall evaluatedSetupKwargs]) :=
  ⟨rfl, rfl, fun _ => rfl, fun _ => rfl⟩
